import Mathlib

/-!
Shallow embedding of the transactional core of the shop-management backend
(invoice aggregate pipeline, money arithmetic, sequences, idempotency,
payments and party balances) together with proofs about the embedded code.

Conventions of the embedding:
* JavaScript numbers are modelled as `ℚ` (the code only ever produces
  rationals: client decimals, integer paisa values, `Math.round` results).
* `Math.round x` is `⌊x + 1/2⌋` (round half towards plus infinity), the
  exact semantics of JS `Math.round` on finite inputs.
* SQLite tables are lists of row structures in insertion (rowid) order;
  `.get` of a query without `ORDER BY` is `List.find?`, `.all` is
  `List.filter`, `INSERT` appends, `UPDATE`/`DELETE` map/filter.
* `better-sqlite3` transactions (`BEGIN`/`COMMIT`/`ROLLBACK` in
  `src/db/init.js`) are modelled by `transaction`: on an error the state
  reverts to the pre-transaction state and the error is re-thrown.
* Presentation-only decimal-string columns (`balance`, the `toRupees`
  serialisation of totals in the aggregate) are derived injectively from
  the authoritative integer-paisa values and are not modelled separately;
  equality of the modelled paisa values coincides with equality of the
  serialised strings.
* Audit-log rows and the home-dashboard cache bust are outside the data
  model the claims mention and are not part of the state.
-/

/-- JS `Math.round`: round half towards +∞, as a rational-valued function
(the result is always an integer). -/
def jsRound (q : ℚ) : ℚ := (⌊q + 1 / 2⌋ : ℤ)

/-- One line item of a client-submitted invoice aggregate
(`aggregatePayload.items[i]`).  `taxRate = 0` models the JS falsy values
(`0`, `null`, `undefined`) which all skip the tax branch. -/
structure PayloadItem where
  productId : Option String := none
  description : Option String := none
  hsn : Option String := none
  purity : Option String := none
  quantity : ℚ
  rate : ℚ
  taxRate : ℚ := 0
  weight : Option String := none
  amount : Option String := none
deriving DecidableEq

/-- Result record of `calculateInvoiceTotals` (all values in paisa). -/
structure InvoiceTotals where
  subtotal : ℚ
  taxTotal : ℚ
  cgst : ℚ
  sgst : ℚ
  igst : ℚ
  roundOff : ℚ
  grandTotal : ℚ
deriving DecidableEq

/-- Accumulator state of the `items.forEach` loop in
`calculateInvoiceTotals`. -/
structure TotalsAcc where
  subtotal : ℚ := 0
  taxTotal : ℚ := 0
  cgst : ℚ := 0
  sgst : ℚ := 0
  igst : ℚ := 0
deriving DecidableEq

/-- Body of the `items.forEach` loop of `calculateInvoiceTotals`
(`src/unnamed/part_017`): convert the rate to paisa first, accumulate the
line total, and, when the tax rate is truthy, accumulate the rounded
per-line tax, splitting it between CGST and SGST (the `isIntraState`
placeholder is the constant `true`, so the IGST branch is dead code). -/
def totalsStep (a : TotalsAcc) (item : PayloadItem) : TotalsAcc :=
  let ratePaisa := jsRound (item.rate * 100)
  let lineTotalPaisa := item.quantity * ratePaisa
  let a := { a with subtotal := a.subtotal + lineTotalPaisa }
  if item.taxRate ≠ 0 then
    let lineTaxPaisa := jsRound (lineTotalPaisa * item.taxRate / 100)
    let isIntraState := true
    if isIntraState then
      { a with taxTotal := a.taxTotal + lineTaxPaisa,
               cgst := a.cgst + jsRound (lineTaxPaisa / 2),
               sgst := a.sgst + jsRound (lineTaxPaisa / 2) }
    else
      { a with taxTotal := a.taxTotal + lineTaxPaisa,
               igst := a.igst + lineTaxPaisa }
  else a

/-- `calculateInvoiceTotals(items, placeOfSupply)` from
`src/unnamed/part_017`: integer-paisa totals of an item list.  The
`placeOfSupply` argument is accepted and ignored, exactly as in the
source (the state comparison is an unimplemented placeholder). -/
def calculateInvoiceTotals (items : List PayloadItem)
    (_placeOfSupply : Option String := none) : InvoiceTotals :=
  let acc := items.foldl totalsStep {}
  let grandTotalBeforeRound := acc.subtotal + acc.taxTotal
  let grandTotalPaisa := jsRound (grandTotalBeforeRound / 100) * 100
  { subtotal := acc.subtotal
    taxTotal := acc.taxTotal
    cgst := acc.cgst
    sgst := acc.sgst
    igst := acc.igst
    roundOff := grandTotalPaisa - grandTotalBeforeRound
    grandTotal := grandTotalPaisa }

/-- `sanitizeString` from `src/utils/sanitize.js` on the string case.
The function delegates to the external `sanitize-html` library with
`allowedTags: []`, `allowedAttributes: {}` and
`disallowedTagsMode: 'recursiveEscape'`.  Modelled from the spec: the
library itself is not part of this repository; per the utility's contract
("strips all HTML tags... to prevent any XSS") markup characters do not
survive unescaped, so the model HTML-escapes the markup-significant
characters.  All that the development relies on is that a string
containing `<` is not a fixed point of sanitization. -/
def sanitizeString (s : String) : String :=
  String.join (s.toList.map (fun c =>
    if c = '<' then "&lt;"
    else if c = '>' then "&gt;"
    else if c = '&' then "&amp;"
    else String.singleton c))

/-- JS `x || null` for an optional string: `undefined`/`null` and the
empty string are falsy and become `null`. -/
def jsOrNull : Option String → Option String
  | some s => if s = "" then none else some s
  | none => none

/-- JS `x || d` for an optional string with a string default. -/
def jsOrDefault (o : Option String) (d : String) : String :=
  match o with
  | some s => if s = "" then d else s
  | none => d

/-- JS `q || null` for a number: `0` (and the absent values it also
models) is falsy and becomes `null`. -/
def jsOrNullQ (q : ℚ) : Option ℚ :=
  if q = 0 then none else some q

/-! ## Relational state

One structure per table of `src/db/schema.sql` (with the paisa columns
added by `migrate_paisa.sql`), restricted to the tables the transactional
core reads or writes. -/

/-- A row of `invoices`. -/
structure InvoiceRow where
  id : String
  shop_id : String
  invoice_number : String
  customer_id : Option String
  type : String
  status : String
  date : String
  due_date : Option String
  place_of_supply : Option String
  created_at : String
  updated_at : String
  deleted_at : Option String := none
deriving DecidableEq

/-- A row of `invoice_customer_snapshot`. -/
structure SnapshotRow where
  invoice_id : String
  name : String
  phone : Option String
  gstin : Option String
  address_json : Option String
deriving DecidableEq

/-- A row of `invoice_items`. -/
structure ItemRow where
  id : String
  invoice_id : String
  product_id : Option String
  description : Option String
  quantity : ℚ
  rate : ℚ
  tax_rate : Option ℚ
  weight_json : Option String
  amount_json : Option String
deriving DecidableEq

/-- A row of `invoice_totals` (authoritative integer-paisa values; the
presentation decimal columns are derived from these by `toRupees` and not
modelled). -/
structure TotalsRow where
  invoice_id : String
  subtotal_paisa : ℚ
  tax_total_paisa : ℚ
  cgst_paisa : ℚ
  sgst_paisa : ℚ
  igst_paisa : ℚ
  round_off_paisa : ℚ
  grand_total_paisa : ℚ
deriving DecidableEq

/-- A row of `invoice_photos`. -/
structure PhotoRow where
  id : String
  invoice_id : String
  file_path : String
  checksum : String
  created_at : String
deriving DecidableEq

/-- A row of `payments` (`amount_paisa` is the authoritative integer
value, `amount` the client-submitted decimal). -/
structure PaymentRow where
  id : String
  shop_id : String
  transaction_number : String
  date : String
  type : String
  party_type : String
  party_id : String
  amount_paisa : ℚ
  amount : ℚ
  mode : Option String
  notes : Option String
  created_at : String
deriving DecidableEq

/-- A row of `payment_allocations` (`amount` is the client-submitted
decimal rupee value, converted to paisa only when statuses are
recomputed). -/
structure AllocationRow where
  id : String
  payment_id : String
  invoice_id : String
  amount : ℚ
deriving DecidableEq

/-- A row of `customers` (only the columns the core touches;
`balance_paisa` is the cached derived balance). -/
structure CustomerRow where
  id : String
  shop_id : String
  name : String
  balance_paisa : ℚ
  deleted_at : Option String := none
deriving DecidableEq

/-- A row of `vendors` (only the columns the core touches). -/
structure VendorRow where
  id : String
  shop_id : String
  name : String
  balance_paisa : ℚ
  deleted_at : Option String := none
deriving DecidableEq

/-- A row of `sequences` (per-shop per-key counter). -/
structure SequenceRow where
  shop_id : String
  key : String
  value : ℤ
deriving DecidableEq

/-- A row of `idempotency_keys`. -/
structure IdemKeyRow where
  request_id : String
  shop_id : String
  entity_type : String
  entity_id : String
  created_at : String
deriving DecidableEq

/-- The database: one list per table, in rowid (insertion) order. -/
structure DB where
  invoices : List InvoiceRow := []
  snapshots : List SnapshotRow := []
  items : List ItemRow := []
  totalsRows : List TotalsRow := []
  photos : List PhotoRow := []
  payments : List PaymentRow := []
  allocations : List AllocationRow := []
  customers : List CustomerRow := []
  vendors : List VendorRow := []
  sequences : List SequenceRow := []
  idempotencyKeys : List IdemKeyRow := []
deriving DecidableEq

/-- Thrown errors of the modelled services. -/
inductive Err where
  /-- `Sequence not found: ...` from `getNextSequence`. -/
  | sequenceNotFound
  /-- `Invoice not found` / `Invoice not found or already deleted`. -/
  | invoiceNotFound
  /-- `Payment not found`. -/
  | paymentNotFound
  /-- An injected failure of a row write (used to model a step of the
  create pipeline throwing mid-transaction). -/
  | writeFault
deriving DecidableEq

/-- The caller environment of a service call: the wall-clock values of
`new Date()` and the `crypto`-random UUID stream, which are external
inputs of the code, made explicit so that the services are functions. -/
structure Env where
  now : String
  year : String
  ids : Nat → String

/-! ## Transaction wrapper -/

/-- `transaction(fn)` from `src/db/init.js`: run the body on the current
state; commit its final state on success, roll the state back to the
pre-transaction state and re-throw on any error. -/
def transaction (s : DB) (body : DB → Except Err (DB × α)) :
    DB × Except Err α :=
  match body s with
  | .ok (s', a) => (s', .ok a)
  | .error e => (s, .error e)

/-! ## Sequence generator (`src/services/sequenceService.js`) -/

/-- `getNextSequence(shopId, key)`: one atomic
`UPDATE sequences SET value = value + 1 WHERE shop_id = ? AND key = ?
RETURNING value`; `.get` yields the first returned row.  A missing
counter row throws. -/
def getNextSequence (db : DB) (shopId key : String) :
    Except Err (DB × ℤ) :=
  match db.sequences.find? (fun q => q.shop_id == shopId && q.key == key) with
  | none => .error .sequenceNotFound
  | some r =>
      .ok ({ db with
              sequences := db.sequences.map (fun q =>
                if q.shop_id == shopId && q.key == key then
                  { q with value := q.value + 1 }
                else q) },
           r.value + 1)

/-- `String(seq).padStart(4, '0')`. -/
def padStart4 (s : String) : String :=
  if s.length < 4 then String.mk (List.replicate (4 - s.length) '0') ++ s
  else s

/-- Formatted document number `PREFIX-YYYY-NNNN` (the year is the caller
environment's calendar year, not part of the atomic counter). -/
def docNumber (pre year : String) (seq : ℤ) : String :=
  pre ++ "-" ++ year ++ "-" ++ padStart4 (toString seq)

/-! ## Aggregate decomposer / assembler (`InvoiceAggregate` model,
second document of `src/db/init.js`) -/

/-- `aggregate.customer` of a client-submitted invoice payload. -/
structure PayloadCustomer where
  name : String
  phone : Option String := none
  gstin : Option String := none
  address : Option String := none
deriving DecidableEq

/-- A client-submitted invoice aggregate payload. -/
structure Payload where
  customerId : Option String := none
  type : String
  status : Option String := none
  date : String
  dueDate : Option String := none
  placeOfSupply : Option String := none
  customer : PayloadCustomer
  items : List PayloadItem
deriving DecidableEq

/-- The `invoice` part of a decomposed aggregate. -/
structure DecInvoice where
  customer_id : Option String
  type : String
  status : String
  date : String
  due_date : Option String
  place_of_supply : Option String
deriving DecidableEq

/-- The `customerSnapshot` part of a decomposed aggregate. -/
structure DecSnapshot where
  name : String
  phone : Option String
  gstin : Option String
  address_json : Option String
deriving DecidableEq

/-- One element of the `items` part of a decomposed aggregate (`hsn` and
`purity` are produced by the decomposer but the `invoice_items` insert
lists no such columns, so they are never persisted). -/
structure DecItem where
  product_id : Option String
  description : Option String
  hsn : Option String
  purity : Option String
  quantity : ℚ
  rate : ℚ
  tax_rate : Option ℚ
  weight_json : Option String
  amount_json : Option String
deriving DecidableEq

/-- A decomposed aggregate: the per-table row shapes ready for
insertion. -/
structure Decomposed where
  invoice : DecInvoice
  customerSnapshot : DecSnapshot
  items : List DecItem
  totals : InvoiceTotals
deriving DecidableEq

/-- `decomposeInvoiceAggregate(aggregate, computedValues)`: produce the
per-table row shapes from the client payload and the server-computed
totals.  `JSON.stringify` of the opaque address/weight/amount values is
the identity on their opaque string model. -/
def decomposeInvoiceAggregate (aggregate : Payload)
    (computedValues : InvoiceTotals) : Decomposed :=
  { invoice :=
      { customer_id := aggregate.customerId
        type := aggregate.type
        status := jsOrDefault aggregate.status "UNPAID"
        date := aggregate.date
        due_date := jsOrNull aggregate.dueDate
        place_of_supply := jsOrNull aggregate.placeOfSupply }
    customerSnapshot :=
      { name := aggregate.customer.name
        phone := jsOrNull aggregate.customer.phone
        gstin := jsOrNull aggregate.customer.gstin
        address_json := aggregate.customer.address }
    items := aggregate.items.map (fun item =>
      { product_id := jsOrNull item.productId
        description := jsOrNull item.description
        hsn := jsOrNull item.hsn
        purity := jsOrNull item.purity
        quantity := item.quantity
        rate := item.rate
        tax_rate := jsOrNullQ item.taxRate
        weight_json := item.weight
        amount_json := item.amount })
    totals := computedValues }

/-- `customer` object of an assembled aggregate. -/
structure AggCustomer where
  id : Option String
  name : String
  phone : Option String
  gstin : Option String
  address : Option String
deriving DecidableEq

/-- One element of the `items` list of an assembled aggregate (the
assembler also reads `hsn`/`purity`, which no insert ever writes and the
schema does not declare, so they are the absent value on every assembled
row and are dropped here). -/
structure AggItem where
  id : String
  productId : Option String
  description : Option String
  quantity : ℚ
  rate : ℚ
  taxRate : Option ℚ
  weight : Option String
  amount : Option String
deriving DecidableEq

/-- `totals` object of an assembled aggregate.  The JS serialises each
paisa value with `toRupees` (divide by 100, two fixed decimals), an
injective map from the paisa integers; the model keeps the paisa
values, so aggregate equality coincides with the serialised form's. -/
structure AggTotals where
  subtotal : ℚ
  taxTotal : ℚ
  cgst : ℚ
  sgst : ℚ
  igst : ℚ
  roundOff : ℚ
  grandTotal : ℚ
deriving DecidableEq

/-- One element of the `photos` list of an assembled aggregate. -/
structure AggPhoto where
  id : String
  url : String
  createdAt : String
deriving DecidableEq

/-- An assembled invoice aggregate (the API-facing object shape). -/
structure Aggregate where
  id : String
  invoiceNumber : String
  type : String
  status : String
  date : String
  dueDate : Option String
  placeOfSupply : Option String
  customer : Option AggCustomer
  items : List AggItem
  totals : Option AggTotals
  photos : List AggPhoto
  createdAt : String
  updatedAt : String
deriving DecidableEq

/-- `assembleInvoiceAggregate(invoice, customer, items, totals, photos)`:
pure mapping from the five row-sets to the nested aggregate object. -/
def assembleInvoiceAggregate (invoice : InvoiceRow)
    (customer : Option SnapshotRow) (items : List ItemRow)
    (totals : Option TotalsRow) (photos : List PhotoRow) : Aggregate :=
  { id := invoice.id
    invoiceNumber := invoice.invoice_number
    type := invoice.type
    status := invoice.status
    date := invoice.date
    dueDate := invoice.due_date
    placeOfSupply := invoice.place_of_supply
    customer := customer.map (fun c =>
      { id := invoice.customer_id
        name := c.name
        phone := c.phone
        gstin := c.gstin
        address := c.address_json })
    items := items.map (fun item =>
      { id := item.id
        productId := item.product_id
        description := item.description
        quantity := item.quantity
        rate := item.rate
        taxRate := item.tax_rate
        weight := item.weight_json
        amount := item.amount_json })
    totals := totals.map (fun t =>
      { subtotal := t.subtotal_paisa
        taxTotal := t.tax_total_paisa
        cgst := t.cgst_paisa
        sgst := t.sgst_paisa
        igst := t.igst_paisa
        roundOff := t.round_off_paisa
        grandTotal := t.grand_total_paisa })
    photos := photos.map (fun p =>
      { id := p.id
        url := "/api/photos/" ++ p.id
        createdAt := p.created_at })
    createdAt := invoice.created_at
    updatedAt := invoice.updated_at }

/-! ## Invoice service (`src/services/invoiceService.js`, shop-scoped
variant) -/

/-- `assembleInvoice(shopId, invoiceId)`: the invoice header is looked up
with the tenant predicate and the soft-delete predicate; a miss is the
`null` result (an `Option`, never a thrown error).  The four child
row-sets are then read by `invoice_id` and assembled. -/
def assembleInvoice (db : DB) (shopId invoiceId : String) :
    Option Aggregate :=
  match db.invoices.find? (fun i =>
      i.id == invoiceId && i.shop_id == shopId && i.deleted_at.isNone) with
  | none => none
  | some invoice =>
      some (assembleInvoiceAggregate invoice
        (db.snapshots.find? (fun c => c.invoice_id == invoiceId))
        (db.items.filter (fun it => it.invoice_id == invoiceId))
        (db.totalsRows.find? (fun t => t.invoice_id == invoiceId))
        (db.photos.filter (fun p => p.invoice_id == invoiceId)))

/-- A single row write of the create pipeline, with an injectable fault:
the pipeline's writes are numbered in execution order and the write
throws when the fault schedule selects its number.  `fun _ => false` is
the normal (fault-free) run. -/
def dbWrite (fault : Nat → Bool) (st : DB × Nat) (f : DB → DB) :
    Except Err (DB × Nat) :=
  if fault st.2 then .error .writeFault else .ok (f st.1, st.2 + 1)

/-- The `invoices` header row inserted by `createInvoice`. -/
def mkInvoiceRow (invoiceId shopId invoiceNumber : String)
    (dec : DecInvoice) (now : String) : InvoiceRow :=
  { id := invoiceId
    shop_id := shopId
    invoice_number := invoiceNumber
    customer_id := dec.customer_id
    type := dec.type
    status := dec.status
    date := dec.date
    due_date := dec.due_date
    place_of_supply := dec.place_of_supply
    created_at := now
    updated_at := now }

/-- The `invoice_customer_snapshot` row inserted by
`createInvoice`/`updateInvoice`. -/
def mkSnapshotRow (invoiceId : String) (c : DecSnapshot) : SnapshotRow :=
  { invoice_id := invoiceId
    name := c.name
    phone := c.phone
    gstin := c.gstin
    address_json := c.address_json }

/-- One `invoice_items` row inserted by `createInvoice`/`updateInvoice`
(the insert's column list has no `hsn`/`purity`, so those decomposed
fields are dropped). -/
def mkItemRow (rowId invoiceId : String) (it : DecItem) : ItemRow :=
  { id := rowId
    invoice_id := invoiceId
    product_id := it.product_id
    description := it.description
    quantity := it.quantity
    rate := it.rate
    tax_rate := it.tax_rate
    weight_json := it.weight_json
    amount_json := it.amount_json }

/-- The `invoice_totals` row inserted by `createInvoice`/`updateInvoice`
from the server-computed totals. -/
def mkTotalsRow (invoiceId : String) (ct : InvoiceTotals) : TotalsRow :=
  { invoice_id := invoiceId
    subtotal_paisa := ct.subtotal
    tax_total_paisa := ct.taxTotal
    cgst_paisa := ct.cgst
    sgst_paisa := ct.sgst
    igst_paisa := ct.igst
    round_off_paisa := ct.roundOff
    grand_total_paisa := ct.grandTotal }

/-- The `decomposed.items.forEach(item => itemStmt.run(...))` loop of
`createInvoice`/`updateInvoice`: one insert per item, each drawing a
fresh UUID from the environment stream (offsets `j, j+1, ...`). -/
def insertItemRows (fault : Nat → Bool) (env : Env) (invoiceId : String) :
    List DecItem → Nat → DB × Nat → Except Err (DB × Nat)
  | [], _, st => .ok st
  | it :: rest, j, st => do
      let st ← dbWrite fault st (fun d =>
        { d with items := d.items ++ [mkItemRow (env.ids j) invoiceId it] })
      insertItemRows fault env invoiceId rest (j + 1) st

/-- `createInvoice(shopId, aggregatePayload, requestId, actorUserId)`
with an injectable fault schedule over its row writes, all inside one
`transaction`: idempotency-guard check (short-circuit on a hit),
UUID + sequence-number draw, server-side totals computation,
decomposition, the header/snapshot/items/totals inserts, the
idempotency-key insert when a request token is present, and the
assembled aggregate read-back.  The audit log write is out of the
modelled state. -/
def createInvoiceF (fault : Nat → Bool) (s : DB) (shopId : String)
    (p : Payload) (requestId : Option String) (env : Env) :
    DB × Except Err (Option Aggregate) :=
  transaction s (fun db =>
    match requestId.bind (fun rid =>
        db.idempotencyKeys.find? (fun k =>
          k.request_id == rid && k.shop_id == shopId)) with
    | some existing => .ok (db, assembleInvoice db shopId existing.entity_id)
    | none => do
        let invoiceId := env.ids 0
        let (db, seq) ← getNextSequence db shopId "invoice_seq"
        let invoiceNumber := docNumber "INV" env.year seq
        let computedTotals := calculateInvoiceTotals p.items p.placeOfSupply
        let dec := decomposeInvoiceAggregate p computedTotals
        let st ← dbWrite fault (db, 0) (fun d =>
          { d with invoices := d.invoices ++
              [mkInvoiceRow invoiceId shopId invoiceNumber dec.invoice env.now] })
        let st ← dbWrite fault st (fun d =>
          { d with snapshots := d.snapshots ++
              [mkSnapshotRow invoiceId dec.customerSnapshot] })
        let st ← insertItemRows fault env invoiceId dec.items 1 st
        let st ← dbWrite fault st (fun d =>
          { d with totalsRows := d.totalsRows ++
              [mkTotalsRow invoiceId computedTotals] })
        let st ← (match requestId with
          | some rid => dbWrite fault st (fun d =>
              { d with idempotencyKeys := d.idempotencyKeys ++
                  [{ request_id := rid, shop_id := shopId,
                     entity_type := "invoice", entity_id := invoiceId,
                     created_at := env.now }] })
          | none => .ok st)
        .ok (st.1, assembleInvoice st.1 shopId invoiceId))

/-- `createInvoice` without injected faults. -/
def createInvoice (s : DB) (shopId : String) (p : Payload)
    (requestId : Option String) (env : Env) :
    DB × Except Err (Option Aggregate) :=
  createInvoiceF (fun _ => false) s shopId p requestId env

/-- `updateInvoice(shopId, invoiceId, aggregatePayload, actorUserId)`
with an injectable fault schedule over its row writes, all inside one
`transaction`: verify the invoice exists live for the tenant (else
throw), recompute totals, decompose, update the header in place
(including the decomposed `status`), and delete-and-reinsert the
snapshot, items and totals.  The writes are numbered in execution order
(header update 0, snapshot delete 1, snapshot insert 2, items delete 3,
one insert per item, totals delete, totals insert), mirroring the seven
SQL statements of the source; each item insert draws a fresh UUID from
the environment stream. -/
def updateInvoiceF (fault : Nat → Bool) (s : DB)
    (shopId invoiceId : String) (p : Payload) (env : Env) :
    DB × Except Err (Option Aggregate) :=
  transaction s (fun db =>
    match db.invoices.find? (fun i =>
        i.id == invoiceId && i.shop_id == shopId && i.deleted_at.isNone) with
    | none => .error .invoiceNotFound
    | some _ => do
        let computedTotals := calculateInvoiceTotals p.items p.placeOfSupply
        let dec := decomposeInvoiceAggregate p computedTotals
        let st ← dbWrite fault (db, 0) (fun d =>
          { d with invoices := d.invoices.map (fun i =>
              if i.id == invoiceId && i.shop_id == shopId then
                { i with customer_id := dec.invoice.customer_id,
                         type := dec.invoice.type,
                         status := dec.invoice.status,
                         date := dec.invoice.date,
                         due_date := dec.invoice.due_date,
                         place_of_supply := dec.invoice.place_of_supply,
                         updated_at := env.now }
              else i) })
        let st ← dbWrite fault st (fun d =>
          { d with snapshots := (
              d.snapshots.filter (fun c => !(c.invoice_id == invoiceId))) })
        let st ← dbWrite fault st (fun d =>
          { d with snapshots := d.snapshots ++
              [mkSnapshotRow invoiceId dec.customerSnapshot] })
        let st ← dbWrite fault st (fun d =>
          { d with items := (
              d.items.filter (fun it => !(it.invoice_id == invoiceId))) })
        let st ← insertItemRows fault env invoiceId dec.items 0 st
        let st ← dbWrite fault st (fun d =>
          { d with totalsRows := (
              d.totalsRows.filter (fun t => !(t.invoice_id == invoiceId))) })
        let st ← dbWrite fault st (fun d =>
          { d with totalsRows := d.totalsRows ++
              [mkTotalsRow invoiceId computedTotals] })
        .ok (st.1, assembleInvoice st.1 shopId invoiceId))

/-- `updateInvoice` without injected faults. -/
def updateInvoice (s : DB) (shopId invoiceId : String) (p : Payload)
    (env : Env) : DB × Except Err (Option Aggregate) :=
  updateInvoiceF (fun _ => false) s shopId invoiceId p env

/-- `deleteInvoice(shopId, invoiceId, actorUserId)`: one
`UPDATE invoices SET deleted_at = ? WHERE id = ? AND shop_id = ? AND
deleted_at IS NULL`; zero affected rows throws. -/
def deleteInvoice (db : DB) (shopId invoiceId now : String) :
    DB × Except Err Unit :=
  if db.invoices.any (fun i =>
      i.id == invoiceId && i.shop_id == shopId && i.deleted_at.isNone) then
    ({ db with invoices := db.invoices.map (fun i =>
        if i.id == invoiceId && i.shop_id == shopId && i.deleted_at.isNone then
          { i with deleted_at := some now }
        else i) },
     .ok ())
  else (db, .error .invoiceNotFound)

/-! ## Ledger balance engine (`recalculateBalance` in
`src/unnamed/part_017`, `updateCustomerBalance`/`updateVendorBalance` in
the customer/vendor services) -/

/-- `recalculateBalance(db, partyId, partyType)`: full recomputation of a
party's balance from source rows, in paisa — the sum of
`grand_total_paisa` over the party's non-deleted invoices (joined to
their totals rows via `invoice_id`; the query filters on `customer_id`
for either party type and carries no shop predicate, exactly as in the
source) minus the sum of `amount_paisa` over the payments whose
`party_id` and `party_type` match. -/
def recalculateBalance (db : DB) (partyId partyType : String) : ℚ :=
  let total_invoiced :=
    ((db.invoices.filter (fun i =>
        i.customer_id == some partyId && i.deleted_at.isNone)).map (fun i =>
      ((db.totalsRows.filter (fun t => t.invoice_id == i.id)).map
        (fun t => t.grand_total_paisa)).sum)).sum
  let total_paid :=
    ((db.payments.filter (fun p =>
        p.party_id == partyId && p.party_type == partyType)).map
      (fun p => p.amount_paisa)).sum
  total_invoiced - total_paid

/-- `updateCustomerBalance(shopId, customerId)`: recompute the balance
and persist it onto the matching customer rows
(`UPDATE customers SET balance_paisa = ?, balance = ? WHERE id = ? AND
shop_id = ?`). -/
def updateCustomerBalance (db : DB) (shopId customerId : String) : DB :=
  let balancePaisa := recalculateBalance db customerId "CUSTOMER"
  { db with customers := db.customers.map (fun c =>
      if c.id == customerId && c.shop_id == shopId then
        { c with balance_paisa := balancePaisa }
      else c) }

/-- `updateVendorBalance(shopId, vendorId)` (paisa variant): recompute
via `recalculateBalance` with party type `VENDOR` and persist onto the
matching vendor rows. -/
def updateVendorBalance (db : DB) (shopId vendorId : String) : DB :=
  let balancePaisa := recalculateBalance db vendorId "VENDOR"
  { db with vendors := db.vendors.map (fun v =>
      if v.id == vendorId && v.shop_id == shopId then
        { v with balance_paisa := balancePaisa }
      else v) }

/-! ## Payment allocation & status engine
(`src/services/paymentService.js`, paisa variant) -/

/-- The status the engine derives from the allocated paisa total and the
invoice's grand total (the three-way comparison at the end of
`updateInvoiceStatus`). -/
def derivedStatus (totalPaidPaisa grandTotalPaisa : ℚ) : String :=
  if totalPaidPaisa ≥ grandTotalPaisa then "PAID"
  else if totalPaidPaisa > 0 then "PARTIAL"
  else "UNPAID"

/-- `SELECT COALESCE(SUM(amount), 0) ... FROM payment_allocations WHERE
invoice_id = ?`: the decimal-rupee sum of an invoice's live
allocations. -/
def allocatedTotal (db : DB) (invoiceId : String) : ℚ :=
  ((db.allocations.filter (fun a => a.invoice_id == invoiceId)).map
    (fun a => a.amount)).sum

/-- `updateInvoiceStatus(db, shopId, invoiceId)`: look up the invoice's
grand total (tenant-scoped join to `invoice_totals`; a miss returns
without writing), sum the invoice's live allocations, convert the rupee
sum to paisa, and write the derived status onto the invoice. -/
def updateInvoiceStatus (now : String) (db : DB)
    (shopId invoiceId : String) : DB :=
  match (db.invoices.find? (fun i =>
      i.id == invoiceId && i.shop_id == shopId)).bind (fun i =>
        db.totalsRows.find? (fun t => t.invoice_id == i.id)) with
  | none => db
  | some t =>
      let totalPaidPaisa := jsRound (allocatedTotal db invoiceId * 100)
      let status := derivedStatus totalPaidPaisa t.grand_total_paisa
      { db with invoices := db.invoices.map (fun i =>
          if i.id == invoiceId && i.shop_id == shopId then
            { i with status := status, updated_at := now }
          else i) }

/-- Payment data submitted to `createPayment` (`data.amount` and the
allocation amounts are client decimals in rupees). -/
structure AllocInput where
  invoiceId : String
  amount : ℚ
deriving DecidableEq

/-- The `data` argument of `createPayment`. -/
structure PaymentData where
  date : String
  type : String
  partyType : String
  partyId : String
  amount : ℚ
  mode : Option String := none
  notes : Option String := none
  allocations : List AllocInput := []
deriving DecidableEq

/-- `getPayment(shopId, paymentId)`: a payment row with its allocation
rows, or `null`. -/
def getPayment (db : DB) (shopId paymentId : String) :
    Option (PaymentRow × List AllocationRow) :=
  (db.payments.find? (fun p =>
      p.id == paymentId && p.shop_id == shopId)).map (fun p =>
    (p, db.allocations.filter (fun a => a.payment_id == paymentId)))

/-- `createPayment(shopId, data, actorUserId)`: inside one transaction —
draw the transaction number, insert the payment row (storing both the
rounded paisa amount and the submitted decimal, with sanitised notes),
insert the allocation rows, recompute each allocated invoice's status,
and recompute the party's balance according to the party type.  The
audit log write and the dashboard cache bust are out of the modelled
state. -/
def createPayment (s : DB) (shopId : String) (data : PaymentData)
    (env : Env) : DB × Except Err (Option (PaymentRow × List AllocationRow)) :=
  transaction s (fun db => do
    let paymentId := env.ids 0
    let (db, seq) ← getNextSequence db shopId "payment_seq"
    let transactionNumber := docNumber "PAY" env.year seq
    let amountPaisa := jsRound (data.amount * 100)
    let sanitizedNotes := data.notes.map sanitizeString
    let db : DB := { db with payments := db.payments ++
      [{ id := paymentId, shop_id := shopId,
         transaction_number := transactionNumber, date := data.date,
         type := data.type, party_type := data.partyType,
         party_id := data.partyId, amount_paisa := amountPaisa,
         amount := data.amount, mode := jsOrNull data.mode,
         notes := jsOrNull sanitizedNotes, created_at := env.now }] }
    let db : DB := { db with allocations := (db.allocations ++
      (List.range data.allocations.length).zipWith
        (fun j alloc => { id := env.ids (j + 1), payment_id := paymentId,
                          invoice_id := alloc.invoiceId,
                          amount := alloc.amount : AllocationRow })
        data.allocations) }
    let db : DB := data.allocations.foldl (fun d alloc =>
      updateInvoiceStatus env.now d shopId alloc.invoiceId) db
    let db : DB :=
      if data.partyType == "CUSTOMER" then
        updateCustomerBalance db shopId data.partyId
      else if data.partyType == "VENDOR" then
        updateVendorBalance db shopId data.partyId
      else db
    .ok (db, getPayment db shopId paymentId))

/-- `deletePayment(shopId, paymentId, actorUserId)`: inside one
transaction — look up the payment (throw if missing), record the
allocated invoice ids, delete the allocation rows and the payment row,
recompute each touched invoice's status from what remains, and recompute
the party's balance. -/
def deletePayment (s : DB) (shopId paymentId : String) (env : Env) :
    DB × Except Err Unit :=
  transaction s (fun db =>
    match db.payments.find? (fun p =>
        p.id == paymentId && p.shop_id == shopId) with
    | none => .error .paymentNotFound
    | some payment =>
        let touched := (db.allocations.filter (fun a =>
          a.payment_id == paymentId)).map (fun a => a.invoice_id)
        let db : DB := { db with allocations :=
          (db.allocations.filter (fun a => !(a.payment_id == paymentId))) }
        let db : DB := { db with payments :=
          (db.payments.filter (fun p => !(p.id == paymentId))) }
        let db : DB := touched.foldl (fun d invId =>
          updateInvoiceStatus env.now d shopId invId) db
        let db : DB :=
          if payment.party_type == "CUSTOMER" then
            updateCustomerBalance db shopId payment.party_id
          else if payment.party_type == "VENDOR" then
            updateVendorBalance db shopId payment.party_id
          else db
        .ok (db, ()))

/-! ## Derived definitions used by the specification statements -/

/-- The rounded per-line tax of one item (the `lineTaxPaisa` of the loop
body, as a standalone function of the item). -/
def lineTaxPaisa (item : PayloadItem) : ℚ :=
  jsRound (item.quantity * jsRound (item.rate * 100) * item.taxRate / 100)

/-- The item rows the fault-free create/update loop inserts for the
decomposed items, with UUIDs drawn from stream offsets `j, j+1, ...`. -/
def itemRowsFrom (env : Env) (invoiceId : String) :
    List DecItem → Nat → List ItemRow
  | [], _ => []
  | it :: rest, j =>
      mkItemRow (env.ids j) invoiceId it :: itemRowsFrom env invoiceId rest (j + 1)

/-- The committed state of a fault-free `updateInvoice` run that found
its live invoice: header updated in place, snapshot/items/totals
deleted and reinserted (item UUIDs drawn from stream offsets
`0, 1, ...`). -/
def updatedState (s : DB) (shopId invoiceId : String) (p : Payload)
    (env : Env) : DB :=
  let ct := calculateInvoiceTotals p.items p.placeOfSupply
  let dec := decomposeInvoiceAggregate p ct
  { s with
    invoices := s.invoices.map (fun i =>
      if i.id == invoiceId && i.shop_id == shopId then
        { i with customer_id := dec.invoice.customer_id,
                 type := dec.invoice.type,
                 status := dec.invoice.status,
                 date := dec.invoice.date,
                 due_date := dec.invoice.due_date,
                 place_of_supply := dec.invoice.place_of_supply,
                 updated_at := env.now }
      else i)
    snapshots := s.snapshots.filter (fun c => !(c.invoice_id == invoiceId))
      ++ [mkSnapshotRow invoiceId dec.customerSnapshot]
    items := s.items.filter (fun it => !(it.invoice_id == invoiceId))
      ++ itemRowsFrom env invoiceId dec.items 0
    totalsRows := s.totalsRows.filter (fun t => !(t.invoice_id == invoiceId))
      ++ [mkTotalsRow invoiceId ct] }

/-- No row of any of the five invoice tables references the given
invoice id. -/
def noRowsForInvoice (db : DB) (invId : String) : Prop :=
  db.invoices.filter (fun i => i.id == invId) = [] ∧
  db.snapshots.filter (fun c => c.invoice_id == invId) = [] ∧
  db.items.filter (fun it => it.invoice_id == invId) = [] ∧
  db.totalsRows.filter (fun t => t.invoice_id == invId) = [] ∧
  db.photos.filter (fun p => p.invoice_id == invId) = []

/-! ## Concrete fixtures for witnesses and counterexamples -/

/-- A deterministic caller environment. -/
def fxEnv : Env :=
  { now := "2026-10-11T00:00:00.000Z", year := "2026",
    ids := fun n => "uuid-" ++ toString n }

/-- An invoice header row used by the status-engine fixtures. -/
def fxInvoiceRow : InvoiceRow :=
  { id := "inv-1", shop_id := "shop-1", invoice_number := "INV-2026-0001",
    customer_id := some "cust-1", type := "INVOICE", status := "UNPAID",
    date := "2026-10-01", due_date := none, place_of_supply := none,
    created_at := "t0", updated_at := "t0" }

/-- A totals row with a grand total of 10000 paisa. -/
def fxTotalsRow : TotalsRow :=
  { invoice_id := "inv-1", subtotal_paisa := 10000, tax_total_paisa := 0,
    cgst_paisa := 0, sgst_paisa := 0, igst_paisa := 0, round_off_paisa := 0,
    grand_total_paisa := 10000 }

/-- Allocation rows for the status-engine fixture. -/
def fxAllocRows : List ℚ → Nat → List AllocationRow
  | [], _ => []
  | q :: rest, j =>
      { id := "alloc-" ++ toString j, payment_id := "pay-1",
        invoice_id := "inv-1", amount := q } :: fxAllocRows rest (j + 1)

/-- A status-engine fixture state: one invoice with grand total 10000
paisa and the given allocation amounts (decimal rupees) against it. -/
def fxStatusDB (amounts : List ℚ) : DB :=
  { invoices := [fxInvoiceRow]
    totalsRows := [fxTotalsRow]
    allocations := fxAllocRows amounts 0 }

/-- A customer row with a zero cached balance. -/
def fxCustomerRow : CustomerRow :=
  { id := "cust-1", shop_id := "shop-1", name := "Asha", balance_paisa := 0 }

/-- Ledger fixture: one customer with zero cached balance and the two
seeded counters; no invoices or payments yet. -/
def fxLedgerDB : DB :=
  { customers := [fxCustomerRow]
    sequences := [{ shop_id := "shop-1", key := "invoice_seq", value := 0 },
                  { shop_id := "shop-1", key := "payment_seq", value := 0 }] }

/-- A minimal create payload: one untaxed item of 100.00 rupees for
customer `cust-1`. -/
def fxPayload : Payload :=
  { customerId := some "cust-1", type := "INVOICE", date := "2026-10-11",
    customer := { name := "Asha" },
    items := [{ quantity := 1, rate := 100 }] }

/-- A payment of 50.00 rupees from customer `cust-1`, with no
allocations. -/
def fxPaymentData : PaymentData :=
  { date := "2026-10-11", type := "IN", partyType := "CUSTOMER",
    partyId := "cust-1", amount := 50 }

/-- Fixture for the status-frame counterexample: one live `PAID` invoice
with a totals row. -/
def fxPaidDB : DB :=
  { invoices := [{ fxInvoiceRow with status := "PAID" }]
    totalsRows := [fxTotalsRow] }

/-- An update payload that carries no `status` field. -/
def fxUpdatePayload : Payload :=
  { customerId := some "cust-1", type := "INVOICE", date := "2026-10-12",
    customer := { name := "Asha" }, items := [] }

/-- A payload whose free-text fields carry markup. -/
def fxMarkupPayload : Payload :=
  { customerId := some "cust-1", type := "INVOICE", date := "2026-10-11",
    customer := { name := "<b>Asha</b>", address := some "<i>12 Lane</i>" },
    items := [{ description := some "<script>x</script>", quantity := 1,
                rate := 100 }] }

/-- The committed state of a fault-free, non-replayed `createInvoice`
run: the sequence-bumped state plus the five appended row groups (the
idempotency-key row only when a request token was present). -/
def createdState (db1 : DB) (shop : String) (p : Payload)
    (rid : Option String) (env : Env) (seq : ℤ) : DB :=
  let ct := calculateInvoiceTotals p.items p.placeOfSupply
  let dec := decomposeInvoiceAggregate p ct
  { db1 with
    invoices := db1.invoices ++
      [mkInvoiceRow (env.ids 0) shop (docNumber "INV" env.year seq)
        dec.invoice env.now]
    snapshots := db1.snapshots ++ [mkSnapshotRow (env.ids 0) dec.customerSnapshot]
    items := db1.items ++ itemRowsFrom env (env.ids 0) dec.items 1
    totalsRows := db1.totalsRows ++ [mkTotalsRow (env.ids 0) ct]
    idempotencyKeys := db1.idempotencyKeys ++ (match rid with
      | some r0 => [{ request_id := r0, shop_id := shop,
                      entity_type := "invoice", entity_id := env.ids 0,
                      created_at := env.now }]
      | none => []) }

/-- The ledger invariant for one party of one tenant: every stored row
of that party carries exactly the balance `recalculateBalance` derives
from the current rows.  The customer half binds when the party type is
`CUSTOMER`, the vendor half when it is `VENDOR`. -/
def partyBalanceConsistent (db : DB) (shopId partyId partyType : String) :
    Prop :=
  (∀ c ∈ db.customers, partyType = "CUSTOMER" → c.id = partyId →
    c.shop_id = shopId →
    c.balance_paisa = recalculateBalance db partyId partyType) ∧
  (∀ v ∈ db.vendors, partyType = "VENDOR" → v.id = partyId →
    v.shop_id = shopId →
    v.balance_paisa = recalculateBalance db partyId partyType)

/-! # Theorems -/

/-! ## Helper lemmas -/

/-- `Math.round` of an integer is the integer itself. -/
theorem jsRound_intCast (k : ℤ) : jsRound (k : ℚ) = k := by
  unfold jsRound
  norm_num

/-- Every accumulator reachable by the loop keeps CGST = SGST. -/
theorem foldl_totalsStep_cgst_eq_sgst (items : List PayloadItem) :
    ∀ a : TotalsAcc, a.cgst = a.sgst →
      (items.foldl totalsStep a).cgst = (items.foldl totalsStep a).sgst := by
  induction items with
  | nil => intro a h; exact h
  | cons it rest ih =>
      intro a h
      refine ih _ ?_
      by_cases hc : it.taxRate ≠ 0 <;> simp [totalsStep, hc, h]

/-- When every taxed item has an even per-line tax, the loop keeps
CGST + SGST = tax total. -/
theorem foldl_totalsStep_sum (items : List PayloadItem) :
    ∀ a : TotalsAcc,
      (∀ it ∈ items, it.taxRate ≠ 0 → ∃ k : ℤ, lineTaxPaisa it = 2 * k) →
      a.cgst + a.sgst = a.taxTotal →
      (items.foldl totalsStep a).cgst + (items.foldl totalsStep a).sgst =
        (items.foldl totalsStep a).taxTotal := by
  induction items with
  | nil => intro a _ h; exact h
  | cons it rest ih =>
      intro a hev h
      refine ih _ (fun x hx => hev x (List.mem_cons_of_mem _ hx)) ?_
      by_cases hc : it.taxRate ≠ 0
      · obtain ⟨k, hk⟩ := hev it (List.mem_cons_self _ _) hc
        have hhalf : jsRound (2 * (k : ℚ) / 2) = (k : ℚ) := by
          have h2 : 2 * (k : ℚ) / 2 = (k : ℚ) := by ring
          rw [h2, jsRound_intCast]
        have harg : jsRound (it.quantity * jsRound (it.rate * 100) * it.taxRate / 100)
            = lineTaxPaisa it := rfl
        simp only [totalsStep, if_pos hc, harg, hk, hhalf, if_true]
        linarith
      · simp [totalsStep, hc, h]

/-- C5.  For every item list the returned totals satisfy
`subtotal + taxTotal + roundOff = grandTotal` exactly, with
`grandTotal` the rounding of `subtotal + taxTotal` to the nearest
multiple of 100 paisa (so `roundOff` is forced); three items priced
33.33, 33.33, 33.34 at 0% tax subtotal to exactly 10000 paisa with zero
round-off; and the round-off can be negative (one item priced 100.40
gives round-off −40). -/
theorem calculateInvoiceTotals_rounding_identity :
    (∀ (items : List PayloadItem) (pos : Option String),
      (calculateInvoiceTotals items pos).subtotal +
          (calculateInvoiceTotals items pos).taxTotal +
          (calculateInvoiceTotals items pos).roundOff =
        (calculateInvoiceTotals items pos).grandTotal ∧
      (calculateInvoiceTotals items pos).grandTotal =
        jsRound (((calculateInvoiceTotals items pos).subtotal +
          (calculateInvoiceTotals items pos).taxTotal) / 100) * 100) ∧
    ((calculateInvoiceTotals
        [{ quantity := 1, rate := 3333/100 }, { quantity := 1, rate := 3333/100 },
         { quantity := 1, rate := 3334/100 }] none).subtotal = 10000 ∧
     (calculateInvoiceTotals
        [{ quantity := 1, rate := 3333/100 }, { quantity := 1, rate := 3333/100 },
         { quantity := 1, rate := 3334/100 }] none).roundOff = 0) ∧
    (calculateInvoiceTotals [{ quantity := 1, rate := 1004/10 }] none).roundOff
      = -40 := by
  refine ⟨fun items pos => ⟨?_, ?_⟩, ⟨?_, ?_⟩, ?_⟩
  · simp only [calculateInvoiceTotals]
    ring
  · simp only [calculateInvoiceTotals]
  · norm_num [calculateInvoiceTotals, totalsStep, jsRound]
  · norm_num [calculateInvoiceTotals, totalsStep, jsRound]
  · norm_num [calculateInvoiceTotals, totalsStep, jsRound]

/-- C6 (amended).  The per-line tax is split evenly between CGST and
SGST in the sense that the returned CGST and SGST are always equal; when
every taxed line's rounded tax is an even number of paisa (in particular
in the quoted example) CGST + SGST also equals the returned tax total;
and one item of quantity 2, rate 500.00, tax 3% yields exactly
subtotal 100000, tax total 3000 (CGST 1500, SGST 1500) and grand total
103000. -/
theorem calculateInvoiceTotals_gst_split :
    (∀ (items : List PayloadItem) (pos : Option String),
      (calculateInvoiceTotals items pos).cgst =
        (calculateInvoiceTotals items pos).sgst) ∧
    (∀ (items : List PayloadItem) (pos : Option String),
      (∀ it ∈ items, it.taxRate ≠ 0 → ∃ k : ℤ, lineTaxPaisa it = 2 * k) →
      (calculateInvoiceTotals items pos).cgst +
          (calculateInvoiceTotals items pos).sgst =
        (calculateInvoiceTotals items pos).taxTotal) ∧
    calculateInvoiceTotals [{ quantity := 2, rate := 500, taxRate := 3 }] none =
      { subtotal := 100000, taxTotal := 3000, cgst := 1500, sgst := 1500,
        igst := 0, roundOff := 0, grandTotal := 103000 } := by
  refine ⟨fun items pos => ?_, fun items pos hev => ?_, ?_⟩
  · simpa [calculateInvoiceTotals] using
      foldl_totalsStep_cgst_eq_sgst items {} rfl
  · simpa [calculateInvoiceTotals] using
      foldl_totalsStep_sum items {} hev (by norm_num)
  · norm_num [calculateInvoiceTotals, totalsStep, jsRound, InvoiceTotals.mk.injEq]

/-- C6 witness: the even-split hypothesis holds at the quoted example
(per-line tax 3000 paisa), and the conclusion then gives
CGST + SGST = tax total there. -/
theorem calculateInvoiceTotals_gst_split_witness :
    (calculateInvoiceTotals [{ quantity := 2, rate := 500, taxRate := 3 }]
        none).cgst +
      (calculateInvoiceTotals [{ quantity := 2, rate := 500, taxRate := 3 }]
        none).sgst =
    (calculateInvoiceTotals [{ quantity := 2, rate := 500, taxRate := 3 }]
        none).taxTotal :=
  calculateInvoiceTotals_gst_split.2.1
    [{ quantity := 2, rate := 500, taxRate := 3 }] none
    (by
      intro it hit _
      refine ⟨1500, ?_⟩
      rcases List.mem_singleton.mp hit with rfl
      norm_num [lineTaxPaisa, jsRound])

/-- C6 counterexample: a single item of rate 0.50 at 2% tax has per-line
tax 1 paisa (odd); the returned CGST and SGST are each 1 paisa, so
CGST + SGST = 2 while the returned tax total is 1 — the claim's
universal CGST + SGST = tax total is false. -/
theorem calculateInvoiceTotals_gst_counterexample :
    (calculateInvoiceTotals [{ quantity := 1, rate := 1/2, taxRate := 2 }]
        none).cgst +
      (calculateInvoiceTotals [{ quantity := 1, rate := 1/2, taxRate := 2 }]
        none).sgst = 2 ∧
    (calculateInvoiceTotals [{ quantity := 1, rate := 1/2, taxRate := 2 }]
        none).taxTotal = 1 ∧
    ¬ ((calculateInvoiceTotals [{ quantity := 1, rate := 1/2, taxRate := 2 }]
          none).cgst +
        (calculateInvoiceTotals [{ quantity := 1, rate := 1/2, taxRate := 2 }]
          none).sgst =
      (calculateInvoiceTotals [{ quantity := 1, rate := 1/2, taxRate := 2 }]
          none).taxTotal) := by
  refine ⟨?_, ?_, ?_⟩ <;>
    norm_num [calculateInvoiceTotals, totalsStep, jsRound]

/-- C9 (amended).  Decomposition applies no sanitization: the customer
snapshot's name and address and every item description are passed
through to the row shapes unchanged (descriptions only through the JS
`|| null` empty-string coercion), for every payload and every computed
totals record. -/
theorem decomposeInvoiceAggregate_passthrough :
    ∀ (aggregate : Payload) (cv : InvoiceTotals),
      (decomposeInvoiceAggregate aggregate cv).customerSnapshot.name =
          aggregate.customer.name ∧
      (decomposeInvoiceAggregate aggregate cv).customerSnapshot.address_json =
          aggregate.customer.address ∧
      (decomposeInvoiceAggregate aggregate cv).items.map
          (fun it => it.description) =
        aggregate.items.map (fun it => jsOrNull it.description) := by
  intro aggregate cv
  refine ⟨rfl, rfl, ?_⟩
  simp [decomposeInvoiceAggregate]

/-- C9 counterexample: on a payload whose customer name carries markup,
the decomposed snapshot's name is the raw markup string, which is not a
fixed point of `sanitizeString` — so the produced row shapes do not
contain only sanitized values. -/
theorem decomposeInvoiceAggregate_unsanitized_counterexample :
    (decomposeInvoiceAggregate fxMarkupPayload
        (calculateInvoiceTotals fxMarkupPayload.items
          none)).customerSnapshot.name = "<b>Asha</b>" ∧
    sanitizeString "<b>Asha</b>" ≠ "<b>Asha</b>" ∧
    (decomposeInvoiceAggregate fxMarkupPayload
        (calculateInvoiceTotals fxMarkupPayload.items
          none)).items.map (fun it => it.description) =
      [some "<script>x</script>"] := by
  refine ⟨rfl, by decide, ?_⟩
  simp [decomposeInvoiceAggregate, fxMarkupPayload, jsOrNull]

/-- C7.  `assembleInvoice` returns a value exactly when a live invoice
row with that id is owned by the querying tenant; for a missing,
soft-deleted, or other-tenant invoice it returns the absent value (its
return type is an `Option`: no exception path exists). -/
theorem assembleInvoice_isSome_iff :
    ∀ (db : DB) (shopId invoiceId : String),
      (assembleInvoice db shopId invoiceId).isSome ↔
        ∃ i ∈ db.invoices,
          i.id = invoiceId ∧ i.shop_id = shopId ∧ i.deleted_at = none := by
  intro db shopId invoiceId
  rcases h : db.invoices.find? (fun i =>
      i.id == invoiceId && i.shop_id == shopId && i.deleted_at.isNone) with _ | i
  · simp only [assembleInvoice, h, Option.isSome_none, Bool.false_eq_true,
      false_iff]
    intro ⟨i, hi, h1, h2, h3⟩
    have := List.find?_eq_none.mp h i hi
    simp [h1, h2, h3] at this
  · simp only [assembleInvoice, h, Option.isSome_some, true_iff]
    refine ⟨i, List.mem_of_find?_eq_some h, ?_⟩
    have := List.find?_some h
    simp only [Bool.and_eq_true, beq_iff_eq, Option.isNone_iff_eq_none] at this
    exact ⟨this.1.1, this.1.2, this.2⟩

/-- `find?` of the counter predicate commutes with the counter bump: the
bump changes only `value`, never the `shop_id`/`key` the predicate
reads. -/
theorem find?_bump_sequences (l : List SequenceRow) (shopId key : String) :
    (l.map (fun q => if q.shop_id == shopId && q.key == key then
        { q with value := q.value + 1 } else q)).find?
      (fun q => q.shop_id == shopId && q.key == key) =
    (l.find? (fun q => q.shop_id == shopId && q.key == key)).map
      (fun q => { q with value := q.value + 1 }) := by
  induction l with
  | nil => rfl
  | cons x xs ih =>
      by_cases hx : (x.shop_id == shopId && x.key == key) = true
      · have hx' := hx
        simp only [Bool.and_eq_true, beq_iff_eq] at hx'
        obtain ⟨h1, h2⟩ := hx'
        subst h1
        subst h2
        simp [List.find?_cons]
      · simp only [Bool.not_eq_true] at hx
        simp only [List.map_cons, List.find?_cons, hx, Bool.false_eq_true,
          if_false]
        exact ih

/-- C8.  On a seeded counter, `getNextSequence` returns exactly the
stored value plus one and persists the incremented value; two
consecutive draws for the same tenant and key return `v+1` then `v+2`,
so they are distinct and strictly increasing; and on a missing counter
row the call throws the sequence-not-found error (returning no value and
leaving no modified state behind). -/
theorem getNextSequence_spec :
    (∀ (db : DB) (shopId key : String) (r : SequenceRow),
      db.sequences.find? (fun q => q.shop_id == shopId && q.key == key)
          = some r →
      getNextSequence db shopId key =
        .ok ({ db with sequences := db.sequences.map (fun q =>
            if q.shop_id == shopId && q.key == key then
              { q with value := q.value + 1 }
            else q) }, r.value + 1)) ∧
    (∀ (db : DB) (shopId key : String) (r : SequenceRow),
      db.sequences.find? (fun q => q.shop_id == shopId && q.key == key)
          = some r →
      ∃ db1 db2,
        getNextSequence db shopId key = .ok (db1, r.value + 1) ∧
        getNextSequence db1 shopId key = .ok (db2, r.value + 1 + 1) ∧
        r.value + 1 < r.value + 1 + 1) ∧
    (∀ (db : DB) (shopId key : String),
      db.sequences.find? (fun q => q.shop_id == shopId && q.key == key)
          = none →
      getNextSequence db shopId key = .error .sequenceNotFound) := by
  have hok : ∀ (db : DB) (shopId key : String) (r : SequenceRow),
      db.sequences.find? (fun q => q.shop_id == shopId && q.key == key)
          = some r →
      getNextSequence db shopId key =
        .ok ({ db with sequences := db.sequences.map (fun q =>
            if q.shop_id == shopId && q.key == key then
              { q with value := q.value + 1 }
            else q) }, r.value + 1) := by
    intro db shopId key r h
    unfold getNextSequence
    rw [h]
  refine ⟨hok, ?_, ?_⟩
  · intro db shopId key r h
    have h1 := hok db shopId key r h
    have h2 : ({ db with sequences := db.sequences.map (fun q =>
        if q.shop_id == shopId && q.key == key then
          { q with value := q.value + 1 }
        else q) } : DB).sequences.find?
          (fun q => q.shop_id == shopId && q.key == key)
        = some { r with value := r.value + 1 } := by
      rw [find?_bump_sequences, h]
      rfl
    have h3 := hok _ shopId key _ h2
    exact ⟨_, _, h1, h3, by omega⟩
  · intro db shopId key h
    unfold getNextSequence
    rw [h]

/-- C8 witness: on the seeded fixture the first draw of `invoice_seq`
persists the bump and returns 1, and drawing the unseeded key
`purchase_seq` throws. -/
theorem getNextSequence_spec_witness :
    getNextSequence fxLedgerDB "shop-1" "invoice_seq" =
      .ok ({ fxLedgerDB with sequences := fxLedgerDB.sequences.map (fun q =>
          if q.shop_id == "shop-1" && q.key == "invoice_seq" then
            { q with value := q.value + 1 }
          else q) }, 1) ∧
    getNextSequence fxLedgerDB "shop-1" "purchase_seq" =
      .error .sequenceNotFound := by
  constructor
  · have h := getNextSequence_spec.1 fxLedgerDB "shop-1" "invoice_seq"
      { shop_id := "shop-1", key := "invoice_seq", value := 0 } rfl
    simpa using h
  · exact getNextSequence_spec.2.2 fxLedgerDB "shop-1" "purchase_seq" rfl

/-- Definitional reduction of the `Except` monad's bind on a success. -/
theorem exceptBind_ok (a : α) (f : α → Except Err β) :
    (Except.ok a >>= f) = f a := rfl

/-- Definitional reduction of the `Except` monad's bind on an error. -/
theorem exceptBind_error (e : Err) (f : α → Except Err β) :
    ((Except.error e : Except Err α) >>= f) = .error e := rfl

/-- Shape of a successful sequence draw: only the `sequences` table
changes. -/
theorem getNextSequence_ok_shape (db db' : DB) (shopId key : String)
    (v : ℤ) (h : getNextSequence db shopId key = .ok (db', v)) :
    db' = { db with sequences := db.sequences.map (fun q =>
      if q.shop_id == shopId && q.key == key then
        { q with value := q.value + 1 }
      else q) } := by
  unfold getNextSequence at h
  rcases hf : db.sequences.find? (fun q =>
      q.shop_id == shopId && q.key == key) with _ | r
  · rw [hf] at h
    exact absurd h (by simp)
  · rw [hf] at h
    simp only [Except.ok.injEq, Prod.mk.injEq] at h
    exact h.1.symm

/-- A fault-free item-insert loop appends exactly the item rows and
advances the write counter by the number of items. -/
theorem insertItemRows_ok_false (env : Env) (inv : String) :
    ∀ (rows : List DecItem) (j : Nat) (db : DB) (c : Nat),
      insertItemRows (fun _ => false) env inv rows j (db, c) =
        .ok ({ db with items := db.items ++ itemRowsFrom env inv rows j },
             c + rows.length) := by
  intro rows
  induction rows with
  | nil =>
      intro j db c
      simp [insertItemRows, itemRowsFrom]
  | cons it rest ih =>
      intro j db c
      simp only [insertItemRows, dbWrite, Bool.false_eq_true, if_false,
        itemRowsFrom, List.length_cons, exceptBind_ok, ih,
        Except.ok.injEq, Prod.mk.injEq]
      refine ⟨?_, by omega⟩
      simp [List.append_assoc]

/-- A fault-free `createInvoice` call that misses the idempotency guard
and draws its sequence successfully commits exactly the created state
and returns the aggregate assembled from it. -/
theorem createInvoice_miss_run (s : DB) (shop : String) (p : Payload)
    (rid : Option String) (env : Env) (db1 : DB) (seq : ℤ)
    (hmiss : rid.bind (fun r0 => s.idempotencyKeys.find? (fun k =>
        k.request_id == r0 && k.shop_id == shop)) = none)
    (hseq : getNextSequence s shop "invoice_seq" = .ok (db1, seq)) :
    createInvoice s shop p rid env =
      (createdState db1 shop p rid env seq,
       .ok (assembleInvoice (createdState db1 shop p rid env seq) shop
         (env.ids 0))) := by
  unfold createInvoice createInvoiceF transaction
  beta_reduce
  rw [hmiss]
  simp only [hseq, exceptBind_ok, dbWrite, Bool.false_eq_true, if_false,
    insertItemRows_ok_false]
  cases rid with
  | none =>
      simp only [exceptBind_ok, createdState]
      simp
  | some r0 =>
      simp only [exceptBind_ok, dbWrite, Bool.false_eq_true, if_false,
        createdState]

/-- A `createInvoice` call whose request token hits the idempotency
guard short-circuits: the state is untouched and the existing entity's
aggregate is returned. -/
theorem createInvoice_hit_run (s : DB) (shop : String) (p : Payload)
    (t : String) (env : Env) (k : IdemKeyRow)
    (hhit : s.idempotencyKeys.find? (fun q =>
        q.request_id == t && q.shop_id == shop) = some k) :
    createInvoice s shop p (some t) env =
      (s, .ok (assembleInvoice s shop k.entity_id)) := by
  unfold createInvoice createInvoiceF transaction
  beta_reduce
  rw [show ((some t).bind (fun rid => s.idempotencyKeys.find? (fun q =>
      q.request_id == rid && q.shop_id == shop))) = some k from hhit]

/-- C3.  Replayed idempotent create: if a first `createInvoice` call
with a request token succeeds, then a second call with the same token
(any payload, any environment) leaves the committed state exactly as the
first call left it — no new header/snapshot/item/totals row, no new
idempotency row, no sequence draw — and returns exactly the first
call's assembled aggregate. -/
theorem createInvoice_idempotent_replay (s : DB) (shop : String)
    (p p' : Payload) (t : String) (env env' : Env)
    (h : (createInvoice s shop p (some t) env).2.isOk = true) :
    createInvoice ((createInvoice s shop p (some t) env).1) shop p'
        (some t) env' =
      ((createInvoice s shop p (some t) env).1,
       (createInvoice s shop p (some t) env).2) := by
  rcases hm : s.idempotencyKeys.find? (fun q =>
      q.request_id == t && q.shop_id == shop) with _ | k
  · -- guard miss: the first call really created the invoice
    rcases hs : getNextSequence s shop "invoice_seq" with e | ⟨db1, seq⟩
    · -- sequence error: the first call failed, contradicting success
      exfalso
      have hrun : createInvoice s shop p (some t) env = (s, .error e) := by
        unfold createInvoice createInvoiceF transaction
        beta_reduce
        rw [show ((some t).bind (fun rid => s.idempotencyKeys.find?
            (fun q => q.request_id == rid && q.shop_id == shop))) =
          (none : Option IdemKeyRow) from hm]
        simp only [hs, exceptBind_error]
      rw [hrun] at h
      simp [Except.isOk, Except.toBool] at h
    · have hrun := createInvoice_miss_run s shop p (some t) env db1 seq
        (by simpa using hm) hs
      rw [hrun]
      have hkeys : (createdState db1 shop p (some t) env seq).idempotencyKeys
          = s.idempotencyKeys ++
            [{ request_id := t, shop_id := shop, entity_type := "invoice",
               entity_id := env.ids 0, created_at := env.now }] := by
        have hdb1 := getNextSequence_ok_shape s db1 shop "invoice_seq" seq hs
        subst hdb1
        rfl
      have hfind : (createdState db1 shop p (some t) env seq).idempotencyKeys.find?
          (fun q => q.request_id == t && q.shop_id == shop) =
          some { request_id := t, shop_id := shop, entity_type := "invoice",
                 entity_id := env.ids 0, created_at := env.now } := by
        rw [hkeys, List.find?_append, hm]
        simp
      have h2 := createInvoice_hit_run (createdState db1 shop p (some t) env seq)
        shop p' t env' _ hfind
      rw [h2]
  · -- guard hit on the first call already: nothing was written
    have h1 := createInvoice_hit_run s shop p t env k hm
    rw [h1]
    have h2 := createInvoice_hit_run s shop p' t env' k hm
    rw [h2]

/-- C3 witness: on the seeded fixture the first tokened create succeeds,
and the replayed call returns the identical state and aggregate. -/
theorem createInvoice_idempotent_replay_witness :
    (createInvoice fxLedgerDB "shop-1" fxPayload (some "tok-1") fxEnv).2.isOk
        = true ∧
    createInvoice ((createInvoice fxLedgerDB "shop-1" fxPayload
        (some "tok-1") fxEnv).1) "shop-1" fxPayload (some "tok-1") fxEnv =
      ((createInvoice fxLedgerDB "shop-1" fxPayload (some "tok-1") fxEnv).1,
       (createInvoice fxLedgerDB "shop-1" fxPayload (some "tok-1") fxEnv).2) := by
  have hok : (createInvoice fxLedgerDB "shop-1" fxPayload (some "tok-1")
      fxEnv).2.isOk = true := by
    have hrun := createInvoice_miss_run fxLedgerDB "shop-1" fxPayload
      (some "tok-1") fxEnv _ _ rfl rfl
    rw [hrun]
    rfl
  exact ⟨hok, createInvoice_idempotent_replay fxLedgerDB "shop-1" fxPayload
    fxPayload "tok-1" fxEnv fxEnv hok⟩

/-- An item-insert loop whose write counter stays strictly below the
faulted step behaves like the fault-free loop. -/
theorem insertItemRows_below (m : Nat) (env : Env) (inv : String) :
    ∀ (rows : List DecItem) (j : Nat) (db : DB) (c : Nat),
      c + rows.length ≤ m →
      insertItemRows (fun k => k == m) env inv rows j (db, c) =
        .ok ({ db with items := db.items ++ itemRowsFrom env inv rows j },
             c + rows.length) := by
  intro rows
  induction rows with
  | nil =>
      intro j db c _
      simp [insertItemRows, itemRowsFrom]
  | cons it rest ih =>
      intro j db c hc
      have hcm : (c == m) = false := by
        simp only [List.length_cons] at hc
        simp only [beq_eq_false_iff_ne, ne_eq]
        omega
      have hrest : (c + 1) + rest.length ≤ m := by
        simp only [List.length_cons] at hc
        omega
      simp only [insertItemRows, dbWrite, hcm, Bool.false_eq_true, if_false,
        exceptBind_ok]
      rw [ih (j + 1) _ (c + 1) hrest]
      simp only [itemRowsFrom, List.length_cons, Except.ok.injEq,
        Prod.mk.injEq]
      refine ⟨?_, by omega⟩
      simp [List.append_assoc]

/-- A transaction whose result is not a success leaves the state exactly
as it was before the call (the `ROLLBACK` branch). -/
theorem transaction_err_state (s : DB)
    (body : DB → Except Err (DB × α))
    (hb : ((transaction s body).2).isOk = false) :
    (transaction s body).1 = s := by
  unfold transaction at hb ⊢
  rcases h : body s with e | ⟨s', a⟩
  · rfl
  · rw [h] at hb
    simp [Except.isOk, Except.toBool] at hb

/-- A fault-free `updateInvoice` call that finds its live invoice
commits exactly the updated state and returns the aggregate assembled
from it. -/
theorem updateInvoice_found_run (s : DB) (shop inv : String)
    (p : Payload) (env : Env) (i0 : InvoiceRow)
    (hfind : s.invoices.find? (fun i =>
        i.id == inv && i.shop_id == shop && i.deleted_at.isNone)
      = some i0) :
    updateInvoice s shop inv p env =
      (updatedState s shop inv p env,
       .ok (assembleInvoice (updatedState s shop inv p env) shop inv)) := by
  unfold updateInvoice updateInvoiceF transaction
  beta_reduce
  rw [hfind]
  simp only [dbWrite, Bool.false_eq_true, if_false, exceptBind_ok,
    insertItemRows_ok_false, updatedState]

/-- C4.  `createInvoice` and `updateInvoice` are atomic: whenever any
step of either pipeline throws (any write-fault schedule, a missing
sequence, anything that makes the call return an error), the
rolled-back state is exactly the pre-call state.  In particular, for a
create, a fault injected after the line-item inserts and before the
totals insert makes the call fail, and — the fresh invoice id having no
rows beforehand — leaves zero rows for that invoice across all five
tables; for an update, a fault injected at the first write after the
line-item inserts (before the totals row is written) makes the call
fail and leaves the database exactly as it was before the call. -/
theorem createInvoice_transaction_rollback :
    (∀ (fault : Nat → Bool) (s : DB) (shop : String) (p : Payload)
        (rid : Option String) (env : Env),
      (createInvoiceF fault s shop p rid env).2.isOk = false →
      (createInvoiceF fault s shop p rid env).1 = s) ∧
    (∀ (s : DB) (shop : String) (p : Payload) (rid : Option String)
        (env : Env) (db1 : DB) (seq : ℤ),
      rid.bind (fun r0 => s.idempotencyKeys.find? (fun k =>
          k.request_id == r0 && k.shop_id == shop)) = none →
      getNextSequence s shop "invoice_seq" = .ok (db1, seq) →
      noRowsForInvoice s (env.ids 0) →
      createInvoiceF (fun k => k == p.items.length + 2) s shop p rid env
          = (s, .error .writeFault) ∧
      noRowsForInvoice
        (createInvoiceF (fun k => k == p.items.length + 2)
          s shop p rid env).1 (env.ids 0)) ∧
    (∀ (fault : Nat → Bool) (s : DB) (shop inv : String) (p : Payload)
        (env : Env),
      (updateInvoiceF fault s shop inv p env).2.isOk = false →
      (updateInvoiceF fault s shop inv p env).1 = s) ∧
    (∀ (s : DB) (shop inv : String) (p : Payload) (env : Env)
        (i0 : InvoiceRow),
      s.invoices.find? (fun i =>
          i.id == inv && i.shop_id == shop && i.deleted_at.isNone)
        = some i0 →
      updateInvoiceF (fun k => k == p.items.length + 4) s shop inv p env
          = (s, .error .writeFault)) := by
  refine ⟨?_, ?_, ?_, ?_⟩
  · intro fault s shop p rid env h
    exact transaction_err_state s _ h
  · intro s shop p rid env db1 seq hmiss hseq hfresh
    have hlen : (decomposeInvoiceAggregate p
        (calculateInvoiceTotals p.items p.placeOfSupply)).items.length
        = p.items.length := by
      simp [decomposeInvoiceAggregate]
    have hrun : createInvoiceF (fun k => k == p.items.length + 2) s shop p
        rid env = (s, .error .writeFault) := by
      unfold createInvoiceF transaction
      beta_reduce
      rw [hmiss]
      have h0 : ((0 : Nat) == p.items.length + 2) = false := by
        simp only [beq_eq_false_iff_ne, ne_eq]
        omega
      have h1 : ((1 : Nat) == p.items.length + 2) = false := by
        simp only [beq_eq_false_iff_ne, ne_eq]
        omega
      have h2 : ((2 + (decomposeInvoiceAggregate p
          (calculateInvoiceTotals p.items p.placeOfSupply)).items.length)
            == p.items.length + 2) = true := by
        simp only [hlen, beq_iff_eq]
        omega
      simp only [hseq, exceptBind_ok, dbWrite, h0, h1, Bool.false_eq_true,
        if_false, insertItemRows_below (p.items.length + 2) env (env.ids 0)
          _ 1 _ 2 (by rw [hlen]; omega),
        h2, if_true, exceptBind_error]
    exact ⟨hrun, by rw [hrun]; exact hfresh⟩
  · intro fault s shop inv p env h
    exact transaction_err_state s _ h
  · intro s shop inv p env i0 hfind
    have hlen : (decomposeInvoiceAggregate p
        (calculateInvoiceTotals p.items p.placeOfSupply)).items.length
        = p.items.length := by
      simp [decomposeInvoiceAggregate]
    unfold updateInvoiceF transaction
    beta_reduce
    rw [hfind]
    have h0 : ((0 : Nat) == p.items.length + 4) = false := by
      simp only [beq_eq_false_iff_ne, ne_eq]
      omega
    have h1 : ((1 : Nat) == p.items.length + 4) = false := by
      simp only [beq_eq_false_iff_ne, ne_eq]
      omega
    have h2 : ((2 : Nat) == p.items.length + 4) = false := by
      simp only [beq_eq_false_iff_ne, ne_eq]
      omega
    have h3 : ((3 : Nat) == p.items.length + 4) = false := by
      simp only [beq_eq_false_iff_ne, ne_eq]
      omega
    have h4 : ((4 + (decomposeInvoiceAggregate p
        (calculateInvoiceTotals p.items p.placeOfSupply)).items.length)
          == p.items.length + 4) = true := by
      simp only [hlen, beq_iff_eq]
      omega
    simp only [dbWrite, h0, h1, h2, h3, Bool.false_eq_true, if_false,
      exceptBind_ok,
      insertItemRows_below (p.items.length + 4) env inv _ 0 _ 4
        (by rw [hlen]; omega),
      h4, if_true, exceptBind_error]

/-- C4 witness: on the seeded fixture, drawing the unseeded shop
`shop-2` makes the create fail and roll back to the original state;
with the fault injected between the item inserts and the totals insert
(step 3 for the one-item payload) the create fails, rolls back, and
leaves zero rows for the drawn invoice id in all five tables; a fault
at the header write makes the update fail and roll back; and with the
fault injected after the update's item inserts and before its totals
insert (step 4 for the empty-item payload) the update fails and leaves
the database exactly as it was. -/
theorem createInvoice_transaction_rollback_witness :
    (createInvoiceF (fun _ => false) fxLedgerDB "shop-2" fxPayload none
        fxEnv).1 = fxLedgerDB ∧
    createInvoiceF (fun k => k == 3) fxLedgerDB "shop-1" fxPayload none
        fxEnv = (fxLedgerDB, .error .writeFault) ∧
    noRowsForInvoice
      (createInvoiceF (fun k => k == 3) fxLedgerDB "shop-1" fxPayload none
        fxEnv).1 (fxEnv.ids 0) ∧
    (updateInvoiceF (fun k => k == 0) fxPaidDB "shop-1" "inv-1"
        fxUpdatePayload fxEnv).1 = fxPaidDB ∧
    updateInvoiceF (fun k => k == fxUpdatePayload.items.length + 4)
        fxPaidDB "shop-1" "inv-1" fxUpdatePayload fxEnv =
      (fxPaidDB, .error .writeFault) := by
  refine ⟨?_, ?_, ?_, ?_, ?_⟩
  · exact createInvoice_transaction_rollback.1 (fun _ => false) fxLedgerDB
      "shop-2" fxPayload none fxEnv rfl
  · have h := (createInvoice_transaction_rollback.2.1 fxLedgerDB "shop-1"
      fxPayload none fxEnv _ _ rfl rfl ⟨rfl, rfl, rfl, rfl, rfl⟩).1
    simpa using h
  · have h := (createInvoice_transaction_rollback.2.1 fxLedgerDB "shop-1"
      fxPayload none fxEnv _ _ rfl rfl ⟨rfl, rfl, rfl, rfl, rfl⟩).2
    simpa using h
  · exact createInvoice_transaction_rollback.2.2.1 (fun k => k == 0)
      fxPaidDB "shop-1" "inv-1" fxUpdatePayload fxEnv rfl
  · exact createInvoice_transaction_rollback.2.2.2 fxPaidDB "shop-1"
      "inv-1" fxUpdatePayload fxEnv _ rfl

/-- C2.  When the tenant-scoped invoice/totals lookup succeeds, the
status `updateInvoiceStatus` writes onto the invoice is a pure function
of the invoice's summed live allocations (converted to paisa) versus its
grand total: `PAID` when the allocated paisa total is ≥ the grand total,
`PARTIAL` when it is strictly between 0 and the grand total, `UNPAID`
otherwise; on the concrete grand total 10000 paisa, allocations summing
to 4000 paisa give `PARTIAL`, to 10000 or to 12000 give `PAID`, and an
empty allocation set gives `UNPAID`. -/
theorem updateInvoiceStatus_derives_status :
    (∀ (now : String) (db : DB) (shopId invoiceId : String)
        (i : InvoiceRow) (t : TotalsRow),
      db.invoices.find? (fun j => j.id == invoiceId && j.shop_id == shopId)
          = some i →
      db.totalsRows.find? (fun u => u.invoice_id == i.id) = some t →
      (updateInvoiceStatus now db shopId invoiceId).invoices =
        db.invoices.map (fun j =>
          if j.id == invoiceId && j.shop_id == shopId then
            { j with
                status :=
                  (if jsRound (allocatedTotal db invoiceId * 100) ≥
                      t.grand_total_paisa then "PAID"
                   else if jsRound (allocatedTotal db invoiceId * 100) > 0
                      then "PARTIAL"
                   else "UNPAID"),
                updated_at := now }
          else j)) ∧
    (updateInvoiceStatus "t1" (fxStatusDB [40]) "shop-1" "inv-1").invoices.map
        (fun r => r.status) = ["PARTIAL"] ∧
    (updateInvoiceStatus "t1" (fxStatusDB [100]) "shop-1" "inv-1").invoices.map
        (fun r => r.status) = ["PAID"] ∧
    (updateInvoiceStatus "t1" (fxStatusDB [60, 60]) "shop-1"
        "inv-1").invoices.map (fun r => r.status) = ["PAID"] ∧
    (updateInvoiceStatus "t1" (fxStatusDB []) "shop-1" "inv-1").invoices.map
        (fun r => r.status) = ["UNPAID"] := by
  refine ⟨?_, ?_, ?_, ?_, ?_⟩
  · intro now db shopId invoiceId i t h1 h2
    unfold updateInvoiceStatus
    simp only [h1, Option.some_bind, h2]
    rfl
  · norm_num [updateInvoiceStatus, fxStatusDB, fxInvoiceRow, fxTotalsRow,
      allocatedTotal, derivedStatus, jsRound, fxAllocRows]
  · norm_num [updateInvoiceStatus, fxStatusDB, fxInvoiceRow, fxTotalsRow,
      allocatedTotal, derivedStatus, jsRound, fxAllocRows]
  · norm_num [updateInvoiceStatus, fxStatusDB, fxInvoiceRow, fxTotalsRow,
      allocatedTotal, derivedStatus, jsRound, fxAllocRows]
  · norm_num [updateInvoiceStatus, fxStatusDB, fxInvoiceRow, fxTotalsRow,
      allocatedTotal, derivedStatus, jsRound, fxAllocRows]

/-- C2 witness: the pure-function equation instantiated on the concrete
4000-of-10000 fixture. -/
theorem updateInvoiceStatus_derives_status_witness :
    (updateInvoiceStatus "t1" (fxStatusDB [40]) "shop-1" "inv-1").invoices =
      (fxStatusDB [40]).invoices.map (fun j =>
        if j.id == "inv-1" && j.shop_id == "shop-1" then
          { j with
              status :=
                (if jsRound (allocatedTotal (fxStatusDB [40]) "inv-1" * 100) ≥
                    fxTotalsRow.grand_total_paisa then "PAID"
                 else if jsRound
                    (allocatedTotal (fxStatusDB [40]) "inv-1" * 100) > 0
                    then "PARTIAL"
                 else "UNPAID"),
              updated_at := "t1" }
        else j) :=
  updateInvoiceStatus_derives_status.1 "t1" (fxStatusDB [40]) "shop-1"
    "inv-1" fxInvoiceRow fxTotalsRow rfl rfl

/-- After `updateCustomerBalance`, every matching customer row carries
the balance recomputed from the (unchanged) ledger rows. -/
theorem updateCustomerBalance_consistent (db : DB) (shop pid : String) :
    ∀ c ∈ (updateCustomerBalance db shop pid).customers, c.id = pid →
      c.shop_id = shop →
      c.balance_paisa =
        recalculateBalance (updateCustomerBalance db shop pid) pid
          "CUSTOMER" := by
  intro c hc hid hshop
  have hrecalc : recalculateBalance (updateCustomerBalance db shop pid) pid
      "CUSTOMER" = recalculateBalance db pid "CUSTOMER" := rfl
  rw [hrecalc]
  simp only [updateCustomerBalance] at hc
  obtain ⟨c', hc', rfl⟩ := List.mem_map.mp hc
  by_cases hcond : (c'.id == pid && c'.shop_id == shop) = true
  · simp [hcond]
  · simp only [Bool.not_eq_true] at hcond
    simp only [hcond, Bool.false_eq_true, if_false] at hid hshop ⊢
    simp [hid, hshop] at hcond

/-- After `updateVendorBalance`, every matching vendor row carries the
balance recomputed from the (unchanged) ledger rows. -/
theorem updateVendorBalance_consistent (db : DB) (shop pid : String) :
    ∀ v ∈ (updateVendorBalance db shop pid).vendors, v.id = pid →
      v.shop_id = shop →
      v.balance_paisa =
        recalculateBalance (updateVendorBalance db shop pid) pid
          "VENDOR" := by
  intro v hv hid hshop
  have hrecalc : recalculateBalance (updateVendorBalance db shop pid) pid
      "VENDOR" = recalculateBalance db pid "VENDOR" := rfl
  rw [hrecalc]
  simp only [updateVendorBalance] at hv
  obtain ⟨v', hv', rfl⟩ := List.mem_map.mp hv
  by_cases hcond : (v'.id == pid && v'.shop_id == shop) = true
  · simp [hcond]
  · simp only [Bool.not_eq_true] at hcond
    simp only [hcond, Bool.false_eq_true, if_false] at hid hshop ⊢
    simp [hid, hshop] at hcond

/-- C1 (amended).  The ledger invariant is restored by the operations
that invoke the balance engine: after a successful `createPayment` and
after a `deletePayment` of an existing payment, every stored row of the
payment's party carries exactly `recalculateBalance` of the committed
state.  Invoice creates and soft-deletes never touch the stored
`customers`/`vendors` rows at all, so the cached balance is left stale
by them until the next payment operation. -/
theorem payment_ops_restore_balance_invariant :
    (∀ (s : DB) (shop : String) (data : PaymentData) (env : Env),
      (createPayment s shop data env).2.isOk = true →
      partyBalanceConsistent (createPayment s shop data env).1 shop
        data.partyId data.partyType) ∧
    (∀ (s : DB) (shop paymentId : String) (env : Env)
        (payment : PaymentRow),
      s.payments.find? (fun q => q.id == paymentId && q.shop_id == shop)
          = some payment →
      partyBalanceConsistent (deletePayment s shop paymentId env).1 shop
        payment.party_id payment.party_type) ∧
    (∀ (s : DB) (shop : String) (p : Payload) (rid : Option String)
        (env : Env),
      (createInvoice s shop p rid env).1.customers = s.customers ∧
      (createInvoice s shop p rid env).1.vendors = s.vendors) ∧
    (∀ (db : DB) (shop invoiceId now : String),
      (deleteInvoice db shop invoiceId now).1.customers = db.customers ∧
      (deleteInvoice db shop invoiceId now).1.vendors = db.vendors) := by
  refine ⟨?_, ?_, ?_, ?_⟩
  · intro s shop data env h
    rcases hs : getNextSequence s shop "payment_seq" with e | ⟨db1, seq⟩
    · exfalso
      have hrun : createPayment s shop data env = (s, .error e) := by
        unfold createPayment transaction
        beta_reduce
        simp only [hs, exceptBind_error]
      rw [hrun] at h
      simp [Except.isOk, Except.toBool] at h
    · unfold createPayment transaction
      beta_reduce
      simp only [hs, exceptBind_ok]
      refine ⟨?_, ?_⟩
      · intro c hc hCust hid hshop
        rw [hCust] at hc ⊢
        simp only [beq_self_eq_true, if_true] at hc ⊢
        exact updateCustomerBalance_consistent _ shop data.partyId c hc
          hid hshop
      · intro v hv hVend hid hshop
        rw [hVend] at hv ⊢
        simp only [show (("VENDOR" : String) == "CUSTOMER") = false from
          rfl, Bool.false_eq_true, if_false, beq_self_eq_true, if_true]
          at hv ⊢
        exact updateVendorBalance_consistent _ shop data.partyId v hv
          hid hshop
  · intro s shop paymentId env payment hfind
    unfold deletePayment transaction
    beta_reduce
    simp only [hfind]
    refine ⟨?_, ?_⟩
    · intro c hc hCust hid hshop
      rw [hCust] at hc ⊢
      simp only [beq_self_eq_true, if_true] at hc ⊢
      exact updateCustomerBalance_consistent _ shop payment.party_id c hc
        hid hshop
    · intro v hv hVend hid hshop
      rw [hVend] at hv ⊢
      simp only [show (("VENDOR" : String) == "CUSTOMER") = false from
        rfl, Bool.false_eq_true, if_false, beq_self_eq_true, if_true]
        at hv ⊢
      exact updateVendorBalance_consistent _ shop payment.party_id v hv
        hid hshop
  · intro s shop p rid env
    rcases hm : rid.bind (fun r0 => s.idempotencyKeys.find? (fun k =>
        k.request_id == r0 && k.shop_id == shop)) with _ | k
    · rcases hs : getNextSequence s shop "invoice_seq" with e | ⟨db1, seq⟩
      · have hrun : createInvoice s shop p rid env = (s, .error e) := by
          unfold createInvoice createInvoiceF transaction
          beta_reduce
          rw [hm]
          simp only [hs, exceptBind_error]
        rw [hrun]
        exact ⟨rfl, rfl⟩
      · rw [createInvoice_miss_run s shop p rid env db1 seq hm hs]
        have hdb1 := getNextSequence_ok_shape s db1 shop "invoice_seq" seq hs
        subst hdb1
        exact ⟨rfl, rfl⟩
    · rcases rid with _ | t
      · simp at hm
      · simp only [Option.some_bind] at hm
        rw [createInvoice_hit_run s shop p t env k hm]
        exact ⟨rfl, rfl⟩
  · intro db shop invoiceId now
    unfold deleteInvoice
    split <;> exact ⟨rfl, rfl⟩

/-- C1 witness: the invariant theorem applied to a concrete payment of
50.00 rupees from the zero-balance customer; the committed cached
balance is −5000 paisa, equal to the full recomputation. -/
theorem payment_ops_restore_balance_invariant_witness :
    partyBalanceConsistent
      (createPayment fxLedgerDB "shop-1" fxPaymentData fxEnv).1 "shop-1"
      "cust-1" "CUSTOMER" ∧
    (createPayment fxLedgerDB "shop-1" fxPaymentData fxEnv).1.customers.map
      (fun c => c.balance_paisa) = [-5000] := by
  constructor
  · exact payment_ops_restore_balance_invariant.1 fxLedgerDB "shop-1"
      fxPaymentData fxEnv rfl
  · simp [createPayment, transaction, getNextSequence, fxLedgerDB,
      fxCustomerRow, fxPaymentData, fxEnv, updateCustomerBalance,
      recalculateBalance, jsRound, jsOrNull, docNumber, padStart4,
      exceptBind_ok, List.find?]
    norm_num

/-- C1 counterexample: creating an invoice of grand total 10000 paisa
for the zero-balance customer completes successfully, yet the customer's
stored balance stays 0 while the ledger recomputation over the committed
state is 10000 — the claimed invariant does not hold after an invoice
create. -/
theorem invoice_create_leaves_balance_stale :
    (createInvoice fxLedgerDB "shop-1" fxPayload none fxEnv).2.isOk
        = true ∧
    (createInvoice fxLedgerDB "shop-1" fxPayload none
        fxEnv).1.customers.map (fun c => c.balance_paisa) = [0] ∧
    recalculateBalance
        (createInvoice fxLedgerDB "shop-1" fxPayload none fxEnv).1
        "cust-1" "CUSTOMER" = 10000 ∧
    (0 : ℚ) ≠ 10000 := by
  have hrun := createInvoice_miss_run fxLedgerDB "shop-1" fxPayload none
    fxEnv _ _ rfl rfl
  rw [hrun]
  refine ⟨rfl, rfl, ?_, by norm_num⟩
  norm_num [createdState, recalculateBalance, mkInvoiceRow, mkTotalsRow,
    decomposeInvoiceAggregate, calculateInvoiceTotals, totalsStep, jsRound,
    fxPayload, fxLedgerDB, fxCustomerRow, fxEnv, docNumber, padStart4,
    itemRowsFrom, mkItemRow, mkSnapshotRow, jsOrNull, jsOrNullQ,
    jsOrDefault]

/-- C10 (amended).  The invoice status column is client-driven on the
write paths: a successful `updateInvoice` rewrites every matching header
row's status to the decomposed client value (`status || 'UNPAID'`),
discarding whatever status was stored before; and a fresh
`createInvoice` persists the decomposed client value as the new row's
status. -/
theorem updateInvoice_status_client_driven :
    (∀ (s : DB) (shop inv : String) (p : Payload) (env : Env),
      (updateInvoice s shop inv p env).2.isOk = true →
      (updateInvoice s shop inv p env).1.invoices =
        s.invoices.map (fun i =>
          if i.id == inv && i.shop_id == shop then
            { i with customer_id := p.customerId, type := p.type,
                     status := jsOrDefault p.status "UNPAID",
                     date := p.date, due_date := jsOrNull p.dueDate,
                     place_of_supply := jsOrNull p.placeOfSupply,
                     updated_at := env.now }
          else i)) ∧
    (∀ (s : DB) (shop : String) (p : Payload) (env : Env) (db1 : DB)
        (seq : ℤ),
      getNextSequence s shop "invoice_seq" = .ok (db1, seq) →
      ((createInvoice s shop p none env).1.invoices.getLast?).map
          (fun r => r.status) = some (jsOrDefault p.status "UNPAID")) := by
  constructor
  · intro s shop inv p env h
    rcases hf : s.invoices.find? (fun i =>
        i.id == inv && i.shop_id == shop && i.deleted_at.isNone) with _ | i0
    · exfalso
      have hrun : updateInvoice s shop inv p env =
          (s, .error .invoiceNotFound) := by
        unfold updateInvoice updateInvoiceF transaction
        beta_reduce
        rw [hf]
      rw [hrun] at h
      simp [Except.isOk, Except.toBool] at h
    · rw [updateInvoice_found_run s shop inv p env i0 hf]
      rfl
  · intro s shop p env db1 seq hs
    rw [createInvoice_miss_run s shop p none env db1 seq rfl hs]
    simp [createdState, mkInvoiceRow, decomposeInvoiceAggregate]

/-- C10 witness: the header-rewrite equation instantiated on the `PAID`
fixture and a status-less update payload, and the created-status
equation instantiated on the seeded fixture. -/
theorem updateInvoice_status_client_driven_witness :
    (updateInvoice fxPaidDB "shop-1" "inv-1" fxUpdatePayload
        fxEnv).1.invoices =
      fxPaidDB.invoices.map (fun i =>
        if i.id == "inv-1" && i.shop_id == "shop-1" then
          { i with customer_id := fxUpdatePayload.customerId,
                   type := fxUpdatePayload.type,
                   status := jsOrDefault fxUpdatePayload.status "UNPAID",
                   date := fxUpdatePayload.date,
                   due_date := jsOrNull fxUpdatePayload.dueDate,
                   place_of_supply := jsOrNull fxUpdatePayload.placeOfSupply,
                   updated_at := fxEnv.now }
        else i) ∧
    ((createInvoice fxLedgerDB "shop-1" fxPayload none
        fxEnv).1.invoices.getLast?).map (fun r => r.status) =
      some (jsOrDefault fxPayload.status "UNPAID") := by
  constructor
  · exact updateInvoice_status_client_driven.1 fxPaidDB "shop-1" "inv-1"
      fxUpdatePayload fxEnv rfl
  · exact updateInvoice_status_client_driven.2 fxLedgerDB "shop-1"
      fxPayload fxEnv _ _ rfl

/-- C10 counterexample: the stored status `PAID` is not preserved by a
full-replacement update whose payload carries no status — the committed
status is `UNPAID`, so `updateInvoice` does not leave the status equal
to what it was before the call. -/
theorem updateInvoice_overwrites_status_counterexample :
    fxPaidDB.invoices.map (fun i => i.status) = ["PAID"] ∧
    (updateInvoice fxPaidDB "shop-1" "inv-1" fxUpdatePayload fxEnv).2.isOk
        = true ∧
    (updateInvoice fxPaidDB "shop-1" "inv-1" fxUpdatePayload
        fxEnv).1.invoices.map (fun i => i.status) = ["UNPAID"] := by
  refine ⟨rfl, rfl, rfl⟩
